import Mathlib

/-!
Verification of the authentication core of a minimal HTTP service
(src/main.py): an in-memory user store built at startup, a first-match
username lookup (UserRepository.with_username), a Basic-Auth access check
(AccessService.check_auth) raising UserNotFoundError or
UserNotAuthenticatedError, and the protected-resource handler
(get_protected_resource) that maps either failure to a uniform 401
response and success to a fixed 200 body.

The Python code is purely functional over the store: the dataclass User is
never mutated, the repository only reads the list, and the handlers only
call the access check, so the embedding below uses plain functions over an
explicit store argument.
-/

/-- The User dataclass of the domain layer: a username and a plaintext
password, both strings. -/
structure User where
  username : String
  password : String
deriving DecidableEq

/-- The per-request HTTPBasicCredentialsProtocol value: the username and
password extracted from the Basic-Auth header of the request. -/
structure Credentials where
  username : String
  password : String
deriving DecidableEq

/-- The application-layer error kinds raised by check_auth: the two
ApplicationError subclasses UserNotFoundError and
UserNotAuthenticatedError. -/
inductive ApplicationError where
  | UserNotFoundError
  | UserNotAuthenticatedError
deriving DecidableEq

open ApplicationError

/-- UserRepository.with_username: next(filter(lambda u: u.username == username,
self._database), None) — the first record of the database list whose
username equals the argument by exact string comparison, or None. -/
def with_username (database : List User) (username : String) : Option User :=
  database.find? (fun u => u.username == username)

/-- AccessService.check_auth. The source declares it as returning User | None,
hence the Option User inside the success type; the two raise statements
become the error branches. It looks the supplied username up; if absent it
raises UserNotFoundError; if the stored password differs from the supplied
one it raises UserNotAuthenticatedError; otherwise it returns the user. -/
def check_auth (credentials : Credentials) (database : List User) :
    Except ApplicationError (Option User) :=
  match with_username database credentials.username with
  | none => Except.error UserNotFoundError
  | some user =>
      if user.password != credentials.password then
        Except.error UserNotAuthenticatedError
      else
        Except.ok (some user)

/-- The observable parts of an HTTP response the handler determines: status
code, headers, and body (for an HTTPException the body carries the detail
message). -/
structure HTTPResponse where
  status_code : Nat
  headers : List (String × String)
  body : String
deriving DecidableEq

/-- The handler get_protected_resource for GET /protected_resource/: it calls
check_auth; on UserNotFoundError or UserNotAuthenticatedError — the two
exception kinds the except clause names — it raises an HTTPException with
status 401, detail "User not authenticated" and header WWW-Authenticate:
Basic; otherwise it returns the literal success string. -/
def get_protected_resource (credentials : Credentials) (database : List User) :
    HTTPResponse :=
  match check_auth credentials database with
  | Except.error UserNotFoundError =>
      ⟨401, [("WWW-Authenticate", "Basic")], "User not authenticated"⟩
  | Except.error UserNotAuthenticatedError =>
      ⟨401, [("WWW-Authenticate", "Basic")], "User not authenticated"⟩
  | Except.ok _ => ⟨200, [], "You got my secret, welcome!"⟩

/-- DBProvider.database: the fixed user list constructed once at startup. -/
def database : List User :=
  [⟨"user1", "pass1"⟩, ⟨"user2", "pass2"⟩, ⟨"user3", "pass3"⟩,
   ⟨"user4", "pass4"⟩, ⟨"user5", "pass5"⟩]

/-! Shared helper lemmas about the lookup and the access check. -/

/-- A record returned by with_username belongs to the store. -/
theorem with_username_mem {db : List User} {s : String} {u : User}
    (h : with_username db s = some u) : u ∈ db :=
  List.mem_of_find?_eq_some h

/-- A record returned by with_username carries the requested username. -/
theorem with_username_username {db : List User} {s : String} {u : User}
    (h : with_username db s = some u) : u.username = s := by
  have hp := List.find?_some h
  simpa using hp

/-- check_auth succeeds exactly when the first record with the supplied
username exists and carries the supplied password, and then the success
value is that record. -/
theorem check_auth_ok_iff (c : Credentials) (db : List User) (r : Option User) :
    check_auth c db = Except.ok r ↔
      ∃ u, r = some u ∧ with_username db c.username = some u ∧
        u.password = c.password := by
  unfold check_auth
  cases hw : with_username db c.username with
  | none => simp
  | some u =>
    by_cases hp : u.password = c.password
    · simp [hp]
      constructor
      · intro h
        exact ⟨u, h.symm, rfl, hp⟩
      · rintro ⟨v, hr, rfl, hv⟩
        exact hr.symm
    · simp [hp]
      rintro v hv rfl
      exact hp

/-! The claims. -/

/-- C2: for every credentials whose username matches no record of the store
(the lookup returns None), check_auth raises UserNotFoundError and returns
no user. -/
theorem check_auth_user_not_found (c : Credentials) (db : List User)
    (h : with_username db c.username = none) :
    check_auth c db = Except.error UserNotFoundError := by
  unfold check_auth
  rw [h]

/-- Witness for C2: the username "nobody" is absent from the startup store,
and check_auth fails with UserNotFoundError on it. -/
theorem check_auth_user_not_found_witness :
    check_auth ⟨"nobody", "pw"⟩ database = Except.error UserNotFoundError :=
  check_auth_user_not_found ⟨"nobody", "pw"⟩ database (by decide)

/-- C3: for every credentials whose username matches a store record (the
lookup returns that first record) but whose password is not exactly equal to
the stored password, check_auth raises UserNotAuthenticatedError; comparison
is plain string equality, so any difference — case, whitespace, anything —
fails. -/
theorem check_auth_wrong_password (c : Credentials) (db : List User) (u : User)
    (h : with_username db c.username = some u) (hp : u.password ≠ c.password) :
    check_auth c db = Except.error UserNotAuthenticatedError := by
  unfold check_auth
  rw [h]
  simp [hp]

/-- Witness for C3: password "PASS1" differs from the stored "pass1" only in
letter case, and check_auth fails with UserNotAuthenticatedError on it. -/
theorem check_auth_wrong_password_witness :
    check_auth ⟨"user1", "PASS1"⟩ database = Except.error UserNotAuthenticatedError :=
  check_auth_wrong_password ⟨"user1", "PASS1"⟩ database ⟨"user1", "pass1"⟩
    (by decide) (by decide)

/-- C5: for every request to the protected route, when check_auth fails with
either error kind the response is 401 with the WWW-Authenticate: Basic header
and detail body "User not authenticated", and when it succeeds the response
is 200 with body "You got my secret, welcome!". -/
theorem get_protected_resource_responses (c : Credentials) (db : List User) :
    (∀ e, check_auth c db = Except.error e →
        get_protected_resource c db =
          ⟨401, [("WWW-Authenticate", "Basic")], "User not authenticated"⟩) ∧
    (∀ r, check_auth c db = Except.ok r →
        get_protected_resource c db =
          ⟨200, [], "You got my secret, welcome!"⟩) := by
  constructor
  · intro e he
    cases e <;> simp [get_protected_resource, he]
  · intro r hr
    simp [get_protected_resource, hr]

/-- C6: two requests to the protected route, one failing the access check
with UserNotFoundError and the other with UserNotAuthenticatedError, produce
identical HTTP responses — status, headers and body — so the two failure
kinds are indistinguishable to the caller. -/
theorem failure_kinds_indistinguishable (c₁ c₂ : Credentials)
    (db₁ db₂ : List User)
    (h₁ : check_auth c₁ db₁ = Except.error UserNotFoundError)
    (h₂ : check_auth c₂ db₂ = Except.error UserNotAuthenticatedError) :
    get_protected_resource c₁ db₁ = get_protected_resource c₂ db₂ := by
  simp [get_protected_resource, h₁, h₂]

/-- Witness for C6: an unknown username and a known username with a wrong
password receive the same response from the handler. -/
theorem failure_kinds_indistinguishable_witness :
    get_protected_resource ⟨"nobody", "pw"⟩ database =
      get_protected_resource ⟨"user1", "wrongpass"⟩ database :=
  failure_kinds_indistinguishable ⟨"nobody", "pw"⟩ ⟨"user1", "wrongpass"⟩
    database database (by rfl) (by rfl)

/-- C7: the startup store contains the record (user1, pass1); with those
credentials check_auth returns it and the handler answers 200 with the exact
success body. -/
theorem protected_resource_user1_success :
    (⟨"user1", "pass1"⟩ : User) ∈ database ∧
    check_auth ⟨"user1", "pass1"⟩ database =
      Except.ok (some ⟨"user1", "pass1"⟩) ∧
    get_protected_resource ⟨"user1", "pass1"⟩ database =
      ⟨200, [], "You got my secret, welcome!"⟩ := by
  refine ⟨by decide, by rfl, by rfl⟩

/-- C1: for every credentials pair matching a stored record exactly — the
store contains a record with that username and that password — check_auth
raises no error and returns exactly the first store record with that
username, which is that matched record. -/
theorem check_auth_exact_match (c : Credentials) (u : User)
    (hu : u ∈ database) (hn : u.username = c.username)
    (hp : u.password = c.password) :
    with_username database c.username = some u ∧
    check_auth c database = Except.ok (some u) := by
  obtain ⟨cu, cp⟩ := c
  simp only at hn hp
  subst hn
  subst hp
  fin_cases hu <;> exact ⟨rfl, rfl⟩

/-- Witness for C1: the stored pair (user3, pass3) authenticates and is
returned. -/
theorem check_auth_exact_match_witness :
    with_username database "user3" = some ⟨"user3", "pass3"⟩ ∧
    check_auth ⟨"user3", "pass3"⟩ database =
      Except.ok (some ⟨"user3", "pass3"⟩) :=
  check_auth_exact_match ⟨"user3", "pass3"⟩ ⟨"user3", "pass3"⟩
    (by decide) rfl rfl

/-- C4: for every store and every input string, with_username returns some u
exactly when u is the first record of the list whose username equals the
input string — every earlier record has a different username, comparison
being exact string equality — and returns None exactly when no record of the
list has that username. The operation is a pure function of the store. -/
theorem with_username_first_match (db : List User) (s : String) :
    (∀ u, with_username db s = some u ↔
        u.username = s ∧
        ∃ l₁ l₂, db = l₁ ++ u :: l₂ ∧ ∀ v ∈ l₁, v.username ≠ s) ∧
    (with_username db s = none ↔ ∀ v ∈ db, v.username ≠ s) := by
  constructor
  · intro u
    rw [with_username, List.find?_eq_some]
    simp
  · rw [with_username, List.find?_eq_none]
    simp

/-- C8: the startup store contains no two records with the same username:
its records are pairwise distinct in the username field. (That the store is
never mutated is inherent in the embedding: the source only reads the list,
so every operation here is a pure function of the store value.) -/
theorem database_no_duplicate_usernames :
    database.Pairwise (fun a b => a.username ≠ b.username) := by
  decide

/-- C9: check_auth never returns a None payload: every normal return is some
user whose username and password equal the supplied credentials exactly, so
the None branch of the declared return type User | None is unreachable. -/
theorem check_auth_never_none (c : Credentials) (db : List User) :
    (∀ r, check_auth c db = Except.ok r → r ≠ none) ∧
    (∀ u, check_auth c db = Except.ok (some u) →
        u.username = c.username ∧ u.password = c.password) := by
  constructor
  · intro r hr
    obtain ⟨u, rfl, -, -⟩ := (check_auth_ok_iff c db r).mp hr
    simp
  · intro u hu
    obtain ⟨v, hv, hw, hp⟩ := (check_auth_ok_iff c db (some u)).mp hu
    obtain rfl : v = u := (Option.some.inj hv).symm
    exact ⟨with_username_username hw, hp⟩

/-- C10: exactly the five startup pairs are accepted: check_auth on the
startup store succeeds exactly for the credentials (user1, pass1) through
(user5, pass5), and on every other credentials it raises one of the two
error kinds. -/
theorem accepted_credentials (c : Credentials) :
    ((∃ r, check_auth c database = Except.ok r) ↔
      c ∈ ([⟨"user1", "pass1"⟩, ⟨"user2", "pass2"⟩, ⟨"user3", "pass3"⟩,
            ⟨"user4", "pass4"⟩, ⟨"user5", "pass5"⟩] : List Credentials)) ∧
    (c ∉ ([⟨"user1", "pass1"⟩, ⟨"user2", "pass2"⟩, ⟨"user3", "pass3"⟩,
            ⟨"user4", "pass4"⟩, ⟨"user5", "pass5"⟩] : List Credentials) →
      ∃ e, check_auth c database = Except.error e) := by
  have main : (∃ r, check_auth c database = Except.ok r) ↔
      c ∈ ([⟨"user1", "pass1"⟩, ⟨"user2", "pass2"⟩, ⟨"user3", "pass3"⟩,
            ⟨"user4", "pass4"⟩, ⟨"user5", "pass5"⟩] : List Credentials) := by
    constructor
    · rintro ⟨r, hr⟩
      obtain ⟨u, -, hw, hp⟩ := (check_auth_ok_iff c database r).mp hr
      have hm := with_username_mem hw
      have hn := with_username_username hw
      obtain ⟨cu, cp⟩ := c
      simp only at hn hp
      subst hn
      subst hp
      simp only [database, List.mem_cons, List.not_mem_nil, or_false] at hm
      rcases hm with rfl | rfl | rfl | rfl | rfl <;> decide
    · intro hc
      simp only [List.mem_cons, List.not_mem_nil, or_false] at hc
      rcases hc with rfl | rfl | rfl | rfl | rfl
      · exact ⟨some ⟨"user1", "pass1"⟩, rfl⟩
      · exact ⟨some ⟨"user2", "pass2"⟩, rfl⟩
      · exact ⟨some ⟨"user3", "pass3"⟩, rfl⟩
      · exact ⟨some ⟨"user4", "pass4"⟩, rfl⟩
      · exact ⟨some ⟨"user5", "pass5"⟩, rfl⟩
  refine ⟨main, fun hno => ?_⟩
  cases h : check_auth c database with
  | error e => exact ⟨e, rfl⟩
  | ok r => exact absurd (main.mp ⟨r, h⟩) hno
